import Mathlib

/-!
Verification of the chaos-controller state logic of
`src/instrumentation.js`: the master fault-state table, the toggle /
reset / status / cascading-scenario handlers, and the best-effort
propagation to downstream services.

JavaScript objects are modelled as association lists from string keys to
JS values, preserving insertion order and the "replace in place or append"
semantics of property assignment.  The four registered services are the
own keys of the `masterState` object literal, so `MasterState` is a record
with one fault table per service; an arbitrary request-supplied service
string is resolved against those keys by `parseService`.
-/

/-- Subset of JavaScript values that can reach the state table: the parsed
JSON request fields and the `undefined` produced by destructuring a missing
body field. -/
inductive JVal : Type where
  | jbool : Bool → JVal
  | jstr : String → JVal
  | jnum : Int → JVal
  | jnull : JVal
  | jundef : JVal
deriving DecidableEq, Repr

/-- A JS object held in the fault table: ordered own properties, string
keys mapped to values. -/
abbrev FaultTable : Type := List (String × JVal)

/-- Property read `obj[k]`: first binding of the key, if any. -/
def objGet : FaultTable → String → Option JVal
  | [], _ => none
  | (k', v') :: rest, k => if k' = k then some v' else objGet rest k

/-- Property write `obj[k] = v`: replaces the value in place when the key
exists, otherwise appends a new binding (JS insertion-order semantics). -/
def objSet : FaultTable → String → JVal → FaultTable
  | [], k, v => [(k, v)]
  | (k', v') :: rest, k, v =>
    if k' = k then (k', v) :: rest else (k', v') :: objSet rest k v

/-- The four registered service names: the own keys of the `SERVICES` and
`masterState` object literals (instrumentation.js lines 58-71). -/
inductive SvcName : Type where
  | claims : SvcName
  | policy : SvcName
  | investment : SvcName
  | notification : SvcName
deriving DecidableEq, Repr

/-- String spelling of a registered service name. -/
def svcStr : SvcName → String
  | .claims => "claims"
  | .policy => "policy"
  | .investment => "investment"
  | .notification => "notification"

/-- Resolve a request-supplied service string against the own keys of
`masterState`; `none` models a falsy `masterState[service]` lookup. -/
def parseService (s : String) : Option SvcName :=
  if s = "claims" then some .claims
  else if s = "policy" then some .policy
  else if s = "investment" then some .investment
  else if s = "notification" then some .notification
  else none

/-- `Object.keys(masterState)`, in declaration order. -/
def allServices : List SvcName := [.claims, .policy, .investment, .notification]

/-- The `masterState` object: one fault table per registered service
(instrumentation.js lines 66-71). -/
structure MasterState : Type where
  claims : FaultTable
  policy : FaultTable
  investment : FaultTable
  notification : FaultTable
deriving DecidableEq, Repr

/-- Read `masterState[svc]` for a registered service. -/
def serviceRecord (st : MasterState) : SvcName → FaultTable
  | .claims => st.claims
  | .policy => st.policy
  | .investment => st.investment
  | .notification => st.notification

/-- Write `masterState[svc][fault] = v` for a registered service. -/
def setFault (st : MasterState) (n : SvcName) (fault : String) (v : JVal) :
    MasterState :=
  match n with
  | .claims => { st with claims := objSet st.claims fault v }
  | .policy => { st with policy := objSet st.policy fault v }
  | .investment => { st with investment := objSet st.investment fault v }
  | .notification => { st with notification := objSet st.notification fault v }

/-- The five fault kinds of each service record at process start
(instrumentation.js lines 67-70). -/
def initFaultTable : FaultTable :=
  [("service_crash", .jbool false), ("high_latency", .jbool false),
   ("db_failure", .jbool false), ("memory_spike", .jbool false),
   ("cpu_spike", .jbool false)]

/-- `masterState` at process start: every flag of every service `false`. -/
def initialMasterState : MasterState :=
  ⟨initFaultTable, initFaultTable, initFaultTable, initFaultTable⟩

/-- Outcome of one outbound `axios.post` to a service's `/chaos/set`. -/
inductive PropOutcome : Type where
  | ok : PropOutcome
  | timeout : PropOutcome
  | refused : PropOutcome
  | non2xx : PropOutcome
deriving DecidableEq, Repr

/-- The network environment: what each downstream service's chaos endpoint
does when posted to. -/
def NetEnv : Type := SvcName → PropOutcome

/-- A network where every propagation succeeds. -/
def envAllOk : NetEnv := fun _ => .ok

/-- A network where every propagation times out. -/
def envAllTimeout : NetEnv := fun _ => .timeout

/-- `propagateChaos` (instrumentation.js lines 73-81): posts the delta,
logs success or failure, and never throws — every failure is caught inside
the function, so it is total and yields only log lines. -/
def propagateChaos (env : NetEnv) (n : SvcName) : List String :=
  match env n with
  | .ok => ["Chaos propagated to " ++ svcStr n]
  | _ => ["Failed to propagate chaos to " ++ svcStr n]

/-- Response of the toggle / reset handlers: `res.json` sends HTTP 200
with a `status` string and the current `masterState`. -/
structure ChaosResponse : Type where
  httpStatus : Nat
  status : String
  masterState : MasterState
deriving DecidableEq, Repr

/-- State change of the `POST /chaos/toggle` handler (instrumentation.js
lines 107-115): the `"all"` branch writes the fault on every registered
service in key order; otherwise a registered service gets the single
write and an unknown service falls through with no mutation. -/
def toggleState (st : MasterState) (svc fault : String) (v : JVal) :
    MasterState :=
  if svc = "all" then
    allServices.foldl (fun s n => setFault s n fault v) st
  else
    match parseService svc with
    | some n => setFault st n fault v
    | none => st

/-- Propagation calls issued by the toggle handler. -/
def togglePropLog (env : NetEnv) (svc : String) : List String :=
  if svc = "all" then
    allServices.foldl (fun acc n => acc ++ propagateChaos env n) []
  else
    match parseService svc with
    | some n => propagateChaos env n
    | none => []

/-- Full `POST /chaos/toggle` handler (instrumentation.js lines 99-120):
mutates the state, propagates per touched service, and always answers
HTTP 200 `{status:"updated", masterState}`. -/
def toggleHandler (env : NetEnv) (st : MasterState) (svc fault : String)
    (v : JVal) : MasterState × ChaosResponse × List String :=
  let st' := toggleState st svc fault v
  (st', ⟨200, "updated", st'⟩, togglePropLog env svc)

/-- Toggle request body as parsed by `express.json`; a missing field
destructures to `undefined`. -/
structure ToggleBody : Type where
  service : Option String
  fault : Option String
  enabled : Option JVal
deriving DecidableEq, Repr

/-- JS coercion of a possibly-`undefined` value used as a property key:
`obj[undefined]` reads or writes the key `"undefined"`. -/
def jsKey : Option String → String
  | some s => s
  | none => "undefined"

/-- A missing `enabled` field is the value `undefined`. -/
def jsVal : Option JVal → JVal
  | some v => v
  | none => JVal.jundef

/-- The toggle route applied to a raw request body: missing fields become
`undefined` exactly as JS destructuring produces them; no validation or
4xx path exists in the handler. -/
def toggleRoute (env : NetEnv) (st : MasterState) (b : ToggleBody) :
    MasterState × ChaosResponse × List String :=
  toggleHandler env st (jsKey b.service) (jsKey b.fault) (jsVal b.enabled)

/-- Clear one service record: `for (const fault of Object.keys(...))
masterState[svc][fault] = false` — every existing key is set to `false`,
keys and order preserved. -/
def clearTable (fs : FaultTable) : FaultTable :=
  fs.map (fun kv => (kv.1, JVal.jbool false))

/-- State change of `POST /chaos/reset` (instrumentation.js lines
122-131): every flag of every service set to `false`. -/
def resetState (st : MasterState) : MasterState :=
  ⟨clearTable st.claims, clearTable st.policy,
   clearTable st.investment, clearTable st.notification⟩

/-- Full `POST /chaos/reset` handler: clears the table, propagates the
full cleared record per service, answers `{status:"reset", masterState}`
with HTTP 200. -/
def resetHandler (env : NetEnv) (st : MasterState) :
    MasterState × ChaosResponse × List String :=
  let st' := resetState st
  (st', ⟨200, "reset", st'⟩,
    allServices.foldl (fun acc n => acc ++ propagateChaos env n) [])

/-- Outcome of one `GET {url}/health` probe issued by the status handler:
success carries the optional truthy `chaos` field of the response body. -/
inductive ProbeResult : Type where
  | ok : Option FaultTable → ProbeResult
  | err : ProbeResult
deriving DecidableEq, Repr

/-- The probe environment for a status query. -/
def ProbeEnv : Type := SvcName → ProbeResult

/-- Per-service entry of the status response. -/
structure ServiceStatus : Type where
  healthy : Bool
  chaos : FaultTable
deriving DecidableEq, Repr

/-- One iteration of the status loop (instrumentation.js lines 89-94):
on success `healthy:true` with `r.data.chaos || \x7b\x7d`; on any error
`healthy:false` with the local `masterState[name]`. -/
def statusOne (p : ProbeResult) (localFs : FaultTable) : ServiceStatus :=
  match p with
  | .ok (some c) => ⟨true, c⟩
  | .ok none => ⟨true, []⟩
  | .err => ⟨false, localFs⟩

/-- Full `GET /chaos/status` handler (instrumentation.js lines 86-97):
probes every registered service and returns the per-service view plus the
raw `masterState`. -/
def statusHandler (env : ProbeEnv) (st : MasterState) :
    List (String × ServiceStatus) × MasterState :=
  (allServices.map (fun n => (svcStr n, statusOne (env n) (serviceRecord st n))),
   st)

/-- Lookup of one service's entry in the status response. -/
def statusGet : List (String × ServiceStatus) → String → Option ServiceStatus
  | [], _ => none
  | (k', v') :: rest, k => if k' = k then some v' else statusGet rest k

/-- One step of the cascading scenario. -/
structure ScenarioStep : Type where
  delay : Nat
  service : String
  fault : String
  enabled : Bool
deriving DecidableEq, Repr

/-- The fixed five-step cascading sequence (instrumentation.js lines
135-141). -/
def cascadeSequence : List ScenarioStep :=
  [⟨0, "claims", "high_latency", true⟩,
   ⟨2000, "policy", "high_latency", true⟩,
   ⟨4000, "claims", "db_failure", true⟩,
   ⟨6000, "investment", "service_crash", true⟩,
   ⟨8000, "notification", "service_crash", true⟩]

/-- Firing one scenario step: `masterState[step.service][step.fault] =
step.enabled` (instrumentation.js line 144). -/
def applyStep (st : MasterState) (s : ScenarioStep) : MasterState :=
  match parseService s.service with
  | some n => setFault st n s.fault (.jbool s.enabled)
  | none => st

/-- MasterState observed `t` milliseconds after the cascading scenario was
scheduled: every step whose `setTimeout` delay has elapsed has fired, in
schedule order. -/
def cascadeStateAt (t : Nat) (st : MasterState) : MasterState :=
  (cascadeSequence.filter (fun s => s.delay ≤ t)).foldl applyStep st

/-- Immediate response of `POST /chaos/scenario/cascading`
(instrumentation.js line 149). -/
def cascadeResponse : String × Nat :=
  ("cascading_failure_started", cascadeSequence.length)

/-- The five (service, fault) cells touched by the cascading scenario. -/
def cascadeCells : List (SvcName × String) :=
  [(.claims, "high_latency"), (.policy, "high_latency"),
   (.claims, "db_failure"), (.investment, "service_crash"),
   (.notification, "service_crash")]

/-- The cells touched by the first two cascade steps. -/
def cascadeFrontCells : List (SvcName × String) :=
  [(.claims, "high_latency"), (.policy, "high_latency")]

/-- A sample state with one flag set, used as a concrete input below. -/
def sampleDirtyState : MasterState :=
  toggleState initialMasterState "claims" "high_latency" (.jbool true)

/-- A probe environment where every health check fails. -/
def probeAllErr : ProbeEnv := fun _ => .err

/-! ### Basic lemmas about object reads and writes -/

theorem objGet_objSet_same (fs : FaultTable) (k : String) (v : JVal) :
    objGet (objSet fs k v) k = some v := by
  induction fs with
  | nil => simp [objGet, objSet]
  | cons kv rest ih =>
    by_cases h : kv.1 = k
    · simp [objGet, objSet, h]
    · simp [objGet, objSet, h, ih]

theorem objGet_objSet_ne (fs : FaultTable) (k k' : String) (v : JVal)
    (h : k' ≠ k) : objGet (objSet fs k v) k' = objGet fs k' := by
  have h' : ¬k = k' := fun e => h (Eq.symm e)
  induction fs with
  | nil => simp [objGet, objSet, h']
  | cons kv rest ih =>
    by_cases hk : kv.1 = k
    · simp [objGet, objSet, hk, h']
    · simp only [objSet, if_neg hk, objGet]
      by_cases hk' : kv.1 = k'
      · simp [hk']
      · simp [hk', ih]

theorem objSet_objSet_same (fs : FaultTable) (k : String) (v w : JVal) :
    objSet (objSet fs k v) k w = objSet fs k w := by
  induction fs with
  | nil => simp [objSet]
  | cons kv rest ih =>
    by_cases h : kv.1 = k
    · simp [objSet, h]
    · simp [objSet, h, ih]

theorem objSet_of_objGet (fs : FaultTable) (k : String) (v : JVal)
    (h : objGet fs k = some v) : objSet fs k v = fs := by
  induction fs with
  | nil => simp [objGet] at h
  | cons kv rest ih =>
    obtain ⟨k0, v0⟩ := kv
    by_cases hk : k0 = k
    · simp [objGet, hk] at h
      simp [objSet, hk, h]
    · simp [objGet, hk] at h
      simp [objSet, hk, ih h]

theorem objGet_clearTable (fs : FaultTable) (k : String) :
    objGet (clearTable fs) k = (objGet fs k).map (fun _ => JVal.jbool false) := by
  induction fs with
  | nil => simp [clearTable, objGet]
  | cons kv rest ih =>
    by_cases h : kv.1 = k
    · simp [clearTable, objGet, h]
    · simp [clearTable, objGet, h] at ih ⊢
      exact ih

/-! ### Lemmas about per-service reads and writes on MasterState -/

theorem serviceRecord_setFault_same (st : MasterState) (n : SvcName)
    (f : String) (v : JVal) :
    serviceRecord (setFault st n f v) n = objSet (serviceRecord st n) f v := by
  cases n <;> simp [setFault, serviceRecord]

theorem serviceRecord_setFault_ne (st : MasterState) (n m : SvcName)
    (f : String) (v : JVal) (h : m ≠ n) :
    serviceRecord (setFault st n f v) m = serviceRecord st m := by
  cases n <;> cases m <;> simp_all [setFault, serviceRecord]

theorem setFault_eq_self (st : MasterState) (n : SvcName) (f : String)
    (v : JVal) (h : objGet (serviceRecord st n) f = some v) :
    setFault st n f v = st := by
  cases n <;> cases st <;>
    simp_all [setFault, serviceRecord, objSet_of_objGet]

theorem setFault_setFault_same (st : MasterState) (n : SvcName) (f : String)
    (v w : JVal) : setFault (setFault st n f v) n f w = setFault st n f w := by
  cases n <;> cases st <;> simp [setFault, objSet_objSet_same]

/-! ### Unfolding the toggle handler branches -/

theorem toggleState_all (st : MasterState) (f : String) (v : JVal) :
    toggleState st "all" f v =
      setFault (setFault (setFault (setFault st .claims f v) .policy f v)
        .investment f v) .notification f v := rfl

theorem parseService_ne_all {svc : String} {n : SvcName}
    (h : parseService svc = some n) : svc ≠ "all" := by
  intro e
  subst e
  exact Option.noConfusion h

theorem toggleState_single (st : MasterState) {svc : String} {n : SvcName}
    (h : parseService svc = some n) (f : String) (v : JVal) :
    toggleState st svc f v = setFault st n f v := by
  unfold toggleState
  rw [if_neg (parseService_ne_all h), h]

theorem serviceRecord_toggleAll_chain (st : MasterState) (f : String)
    (v : JVal) (n : SvcName) :
    serviceRecord (setFault (setFault (setFault (setFault st .claims f v)
        .policy f v) .investment f v) .notification f v) n
      = objSet (serviceRecord st n) f v := by
  cases n <;> rfl

/-! ### Claim theorems -/

/-- C1: after POST /chaos/reset, every fault flag of every registered
service in MasterState is false (each existing key of each service record
is remapped to false), regardless of the prior state, and the response is
HTTP 200 with status "reset" and the cleared masterState. -/
theorem reset_clears_every_flag (env : NetEnv) (st : MasterState) :
    (∀ (n : SvcName) (k : String),
      objGet (serviceRecord (resetHandler env st).1 n) k
        = (objGet (serviceRecord st n) k).map (fun _ => JVal.jbool false)) ∧
    (resetHandler env st).2.1
      = ⟨200, "reset", (resetHandler env st).1⟩ := by
  refine ⟨fun n k => ?_, rfl⟩
  show objGet (serviceRecord (resetState st) n) k = _
  cases n <;> simp [resetState, serviceRecord, objGet_clearTable]

/-- C2: toggling with service "all" and enabled true sets the named fault
to true for every registered service, and every other fault key of every
service keeps the value it had before the call. -/
theorem toggle_all_sets_fault_frames_rest (st : MasterState) (f : String) :
    ∀ n : SvcName,
      objGet (serviceRecord (toggleState st "all" f (.jbool true)) n) f
        = some (.jbool true) ∧
      ∀ g : String, g ≠ f →
        objGet (serviceRecord (toggleState st "all" f (.jbool true)) n) g
          = objGet (serviceRecord st n) g := by
  intro n
  rw [toggleState_all]
  rw [serviceRecord_toggleAll_chain]
  exact ⟨objGet_objSet_same _ _ _, fun g hg => objGet_objSet_ne _ _ _ _ hg⟩

/-- Witness for C2 at a concrete input: the scenario of the spec, starting
from the all-false initial state with fault memory_spike; the cpu_spike
flag of the claims service is untouched. -/
theorem toggle_all_sets_fault_frames_rest_witness :
    ("cpu_spike" : String) ≠ "memory_spike" ∧
    objGet (serviceRecord
      (toggleState initialMasterState "all" "memory_spike" (.jbool true))
      .claims) "cpu_spike"
      = objGet (serviceRecord initialMasterState .claims) "cpu_spike" :=
  ⟨by decide,
   (toggle_all_sets_fault_frames_rest initialMasterState "memory_spike"
     .claims).2 "cpu_spike" (by decide)⟩

/-- C3: for a registered service, the toggle handler returns the normal
success response (HTTP 200, status "updated") with MasterState holding the
intended new flag value, and both the resulting state and the response are
the same under every network environment — a failing propagation is never
surfaced and never rolls back the local mutation. -/
theorem toggle_propagation_failure_isolated (env env' : NetEnv)
    (st : MasterState) {svc : String} {n : SvcName}
    (h : parseService svc = some n) (f : String) (e : JVal) :
    (toggleHandler env st svc f e).1 = toggleState st svc f e ∧
    (toggleHandler env st svc f e).2.1
      = ⟨200, "updated", toggleState st svc f e⟩ ∧
    objGet (serviceRecord (toggleHandler env st svc f e).1 n) f = some e ∧
    (toggleHandler env' st svc f e).1 = (toggleHandler env st svc f e).1 ∧
    (toggleHandler env' st svc f e).2.1
      = (toggleHandler env st svc f e).2.1 := by
  refine ⟨rfl, rfl, ?_, rfl, rfl⟩
  show objGet (serviceRecord (toggleState st svc f e) n) f = some e
  rw [toggleState_single st h, serviceRecord_setFault_same]
  exact objGet_objSet_same _ _ _

/-- Witness for C3: with every outbound propagation timing out, toggling
db_failure on the claims service still answers 200/"updated" and the
state holds the new value. -/
theorem toggle_propagation_failure_isolated_witness :
    parseService "claims" = some .claims ∧
    (toggleHandler envAllTimeout initialMasterState "claims" "db_failure"
        (.jbool true)).2.1
      = ⟨200, "updated",
          toggleState initialMasterState "claims" "db_failure" (.jbool true)⟩ ∧
    objGet (serviceRecord (toggleHandler envAllTimeout initialMasterState
        "claims" "db_failure" (.jbool true)).1 .claims) "db_failure"
      = some (.jbool true) :=
  ⟨by decide,
   (@toggle_propagation_failure_isolated envAllTimeout envAllOk
     initialMasterState "claims" .claims (by decide) "db_failure"
     (.jbool true)).2.1,
   (@toggle_propagation_failure_isolated envAllTimeout envAllOk
     initialMasterState "claims" .claims (by decide) "db_failure"
     (.jbool true)).2.2.1⟩

/-- C4: for every registered service, the status handler reports that
service as healthy with the remote-reported chaos (or an empty table when
the remote reports none) on probe success, and as unhealthy with the
locally held MasterState entry on probe failure; the raw masterState is
returned alongside. -/
theorem status_reports_remote_or_fallback (env : ProbeEnv)
    (st : MasterState) (n : SvcName) :
    statusGet (statusHandler env st).1 (svcStr n)
      = some (statusOne (env n) (serviceRecord st n)) ∧
    (env n = .err →
      statusOne (env n) (serviceRecord st n) = ⟨false, serviceRecord st n⟩) ∧
    (∀ c, env n = .ok c →
      statusOne (env n) (serviceRecord st n) = ⟨true, c.getD []⟩) ∧
    (statusHandler env st).2 = st := by
  refine ⟨?_, fun he => by rw [he]; rfl, fun c hc => ?_, rfl⟩
  · cases n <;> rfl
  · rw [hc]; cases c <;> rfl

/-- Witness for C4: with every probe failing and a locally set flag, the
claims entry reports unhealthy with the local MasterState record. -/
theorem status_reports_remote_or_fallback_witness :
    probeAllErr .claims = .err ∧
    statusOne (probeAllErr .claims) (serviceRecord sampleDirtyState .claims)
      = ⟨false, serviceRecord sampleDirtyState .claims⟩ :=
  ⟨rfl,
   (status_reports_remote_or_fallback probeAllErr sampleDirtyState
     .claims).2.1 rfl⟩

/-- Counterexample for C6 as stated: starting from a state in which the
claims high_latency flag is already true, toggling it to true and back to
false does not restore the starting state (the flag ends false, not
true). -/
theorem toggle_roundtrip_counterexample :
    toggleState (toggleState sampleDirtyState "claims" "high_latency"
        (.jbool true)) "claims" "high_latency" (.jbool false)
      ≠ sampleDirtyState := by decide

/-- C6 amended: for every registered service and fault, toggling the flag
to true and then to false restores the starting MasterState provided the
flag was false before the first toggle. -/
theorem toggle_roundtrip_restores_when_initially_false (st : MasterState)
    {svc : String} {n : SvcName} (h : parseService svc = some n)
    (f : String)
    (hf : objGet (serviceRecord st n) f = some (.jbool false)) :
    toggleState (toggleState st svc f (.jbool true)) svc f (.jbool false)
      = st := by
  rw [toggleState_single st h, toggleState_single _ h,
    setFault_setFault_same]
  exact setFault_eq_self st n f _ hf

/-- Witness for C6 amended: the round trip on claims.high_latency from
the all-false initial state restores the initial state. -/
theorem toggle_roundtrip_restores_witness :
    (parseService "claims" = some .claims ∧
     objGet (serviceRecord initialMasterState .claims) "high_latency"
       = some (.jbool false)) ∧
    toggleState (toggleState initialMasterState "claims" "high_latency"
        (.jbool true)) "claims" "high_latency" (.jbool false)
      = initialMasterState :=
  ⟨⟨by decide, by decide⟩,
   @toggle_roundtrip_restores_when_initially_false initialMasterState
     "claims" .claims (by decide) "high_latency" (by decide)⟩

/-- C7 (evaluating the code at the failing input): a toggle request with
every required field missing is answered with HTTP 200 and status
"updated" — not a 4xx — and mutates nothing. -/
theorem toggle_missing_fields_still_200 :
    (toggleRoute envAllOk initialMasterState ⟨none, none, none⟩).2.1
      = ⟨200, "updated", initialMasterState⟩ ∧
    (toggleRoute envAllOk initialMasterState ⟨none, none, none⟩).1
      = initialMasterState := by decide

/-- C8: a toggle naming a service outside the registry and different from
"all" leaves MasterState entirely unchanged and still answers HTTP 200
with status "updated" and the (unchanged) masterState. -/
theorem toggle_unknown_service_silent_noop (env : NetEnv)
    (st : MasterState) (svc f : String) (e : JVal)
    (h1 : parseService svc = none) (h2 : svc ≠ "all") :
    (toggleHandler env st svc f e).1 = st ∧
    (toggleHandler env st svc f e).2.1 = ⟨200, "updated", st⟩ := by
  have hs : toggleState st svc f e = st := by
    unfold toggleState
    rw [if_neg h2, h1]
  refine ⟨hs, ?_⟩
  show (⟨200, "updated", toggleState st svc f e⟩ : ChaosResponse) = _
  rw [hs]

/-- Witness for C8: toggling the unregistered service "billing" on a
dirty state changes nothing and still reports "updated". -/
theorem toggle_unknown_service_silent_noop_witness :
    (parseService "billing" = none ∧ ("billing" : String) ≠ "all") ∧
    (toggleHandler envAllOk sampleDirtyState "billing" "db_failure"
        (.jbool true)).1 = sampleDirtyState ∧
    (toggleHandler envAllOk sampleDirtyState "billing" "db_failure"
        (.jbool true)).2.1 = ⟨200, "updated", sampleDirtyState⟩ :=
  ⟨⟨by decide, by decide⟩,
   (toggle_unknown_service_silent_noop envAllOk sampleDirtyState "billing"
     "db_failure" (.jbool true) (by decide) (by decide)).1,
   (toggle_unknown_service_silent_noop envAllOk sampleDirtyState "billing"
     "db_failure" (.jbool true) (by decide) (by decide)).2⟩

/-- C9: toggling a flag of a registered service to the value it already
holds leaves MasterState unchanged, and applying the same toggle twice
leaves the same state as applying it once. -/
theorem toggle_idempotent (st : MasterState) {svc : String} {n : SvcName}
    (h : parseService svc = some n) (f : String) (e : JVal) :
    (objGet (serviceRecord st n) f = some e →
      toggleState st svc f e = st) ∧
    toggleState (toggleState st svc f e) svc f e
      = toggleState st svc f e := by
  rw [toggleState_single st h]
  refine ⟨fun hf => setFault_eq_self st n f e hf, ?_⟩
  rw [toggleState_single _ h, setFault_setFault_same]

/-- Witness for C9: re-toggling the already-true claims.high_latency flag
to true changes nothing. -/
theorem toggle_idempotent_witness :
    (parseService "claims" = some .claims ∧
     objGet (serviceRecord sampleDirtyState .claims) "high_latency"
       = some (.jbool true)) ∧
    toggleState sampleDirtyState "claims" "high_latency" (.jbool true)
      = sampleDirtyState :=
  ⟨⟨by decide, by decide⟩,
   (@toggle_idempotent sampleDirtyState "claims" .claims (by decide)
     "high_latency" (.jbool true)).1 (by decide)⟩

/-- C10: for a registered service or "all", the toggle handler validates
nothing about the fault name: any fault string, known or not, is stored
with the given value, so a service record can acquire keys beyond the
five fault kinds and values beyond booleans. -/
theorem toggle_stores_any_fault_key (st : MasterState) (svc f : String)
    (v : JVal) (n : SvcName)
    (h : parseService svc = some n ∨ svc = "all") :
    objGet (serviceRecord (toggleState st svc f v) n) f = some v := by
  rcases h with h | h
  · rw [toggleState_single st h, serviceRecord_setFault_same]
    exact objGet_objSet_same _ _ _
  · subst h
    rw [toggleState_all, serviceRecord_toggleAll_chain]
    exact objGet_objSet_same _ _ _

/-- Witness for C10: a fault name outside the known five, with a string
value, lands in the claims record as given. -/
theorem toggle_stores_any_fault_key_witness :
    (parseService "claims" = some SvcName.claims ∨
      ("claims" : String) = "all") ∧
    objGet (serviceRecord (toggleState initialMasterState "claims"
        "totally_new_fault" (.jstr "oops")) .claims) "totally_new_fault"
      = some (.jstr "oops") :=
  ⟨Or.inl (by decide),
   toggle_stores_any_fault_key initialMasterState "claims"
     "totally_new_fault" (.jstr "oops") .claims (Or.inl (by decide))⟩

/-! ### The cascading scenario timeline -/

theorem cascade_filter_all {t : Nat} (h : 8000 ≤ t) :
    cascadeSequence.filter (fun s => s.delay ≤ t) = cascadeSequence := by
  have h0 : (0 : Nat) ≤ t := Nat.zero_le t
  have h2 : (2000 : Nat) ≤ t := by omega
  have h4 : (4000 : Nat) ≤ t := by omega
  have h6 : (6000 : Nat) ≤ t := by omega
  simp [cascadeSequence, List.filter, h0, h2, h4, h6, h]

theorem cascade_filter_window {t : Nat} (h2 : 2000 ≤ t) (h4 : t < 4000) :
    cascadeSequence.filter (fun s => s.delay ≤ t)
      = [⟨0, "claims", "high_latency", true⟩,
         ⟨2000, "policy", "high_latency", true⟩] := by
  have h0 : (0 : Nat) ≤ t := Nat.zero_le t
  have n4 : ¬(4000 : Nat) ≤ t := by omega
  have n6 : ¬(6000 : Nat) ≤ t := by omega
  have n8 : ¬(8000 : Nat) ≤ t := by omega
  simp [cascadeSequence, List.filter, h0, h2, n4, n6, n8]

theorem cascade_foldl_full (st : MasterState) :
    cascadeSequence.foldl applyStep st =
      setFault (setFault (setFault (setFault (setFault st
        .claims "high_latency" (.jbool true))
        .policy "high_latency" (.jbool true))
        .claims "db_failure" (.jbool true))
        .investment "service_crash" (.jbool true))
        .notification "service_crash" (.jbool true) := rfl

theorem cascade_foldl_two (st : MasterState) :
    List.foldl applyStep st
        [⟨0, "claims", "high_latency", true⟩,
         ⟨2000, "policy", "high_latency", true⟩] =
      setFault (setFault st .claims "high_latency" (.jbool true))
        .policy "high_latency" (.jbool true) := rfl

/-- C5: for the fixed cascading scenario with no other concurrent
mutations, once every delay up to the final 8000ms step has elapsed the
five scheduled cells (claims.high_latency, policy.high_latency,
claims.db_failure, investment.service_crash, notification.service_crash)
are all true and every other cell is unchanged; at any time from the
2000ms step up to (but excluding) the 4000ms step, only the first two of
those cells have been set and every other cell is unchanged. -/
theorem cascade_timeline (st : MasterState) (t : Nat) :
    (8000 ≤ t →
      (objGet (serviceRecord (cascadeStateAt t st) .claims) "high_latency"
          = some (.jbool true) ∧
       objGet (serviceRecord (cascadeStateAt t st) .policy) "high_latency"
          = some (.jbool true) ∧
       objGet (serviceRecord (cascadeStateAt t st) .claims) "db_failure"
          = some (.jbool true) ∧
       objGet (serviceRecord (cascadeStateAt t st) .investment)
          "service_crash" = some (.jbool true) ∧
       objGet (serviceRecord (cascadeStateAt t st) .notification)
          "service_crash" = some (.jbool true)) ∧
      ∀ (n : SvcName) (g : String), (n, g) ∉ cascadeCells →
        objGet (serviceRecord (cascadeStateAt t st) n) g
          = objGet (serviceRecord st n) g) ∧
    (2000 ≤ t → t < 4000 →
      (objGet (serviceRecord (cascadeStateAt t st) .claims) "high_latency"
          = some (.jbool true) ∧
       objGet (serviceRecord (cascadeStateAt t st) .policy) "high_latency"
          = some (.jbool true)) ∧
      ∀ (n : SvcName) (g : String), (n, g) ∉ cascadeFrontCells →
        objGet (serviceRecord (cascadeStateAt t st) n) g
          = objGet (serviceRecord st n) g) := by
  constructor
  · intro h8
    have e1 : cascadeStateAt t st =
        setFault (setFault (setFault (setFault (setFault st
          .claims "high_latency" (.jbool true))
          .policy "high_latency" (.jbool true))
          .claims "db_failure" (.jbool true))
          .investment "service_crash" (.jbool true))
          .notification "service_crash" (.jbool true) := by
      unfold cascadeStateAt
      rw [cascade_filter_all h8, cascade_foldl_full]
    rw [e1]
    refine ⟨⟨?_, ?_, ?_, ?_, ?_⟩, ?_⟩
    · show objGet (objSet (objSet st.claims "high_latency" (.jbool true))
        "db_failure" (.jbool true)) "high_latency" = some (.jbool true)
      rw [objGet_objSet_ne _ _ _ _ (by decide)]
      exact objGet_objSet_same _ _ _
    · show objGet (objSet st.policy "high_latency" (.jbool true))
        "high_latency" = some (.jbool true)
      exact objGet_objSet_same _ _ _
    · show objGet (objSet (objSet st.claims "high_latency" (.jbool true))
        "db_failure" (.jbool true)) "db_failure" = some (.jbool true)
      exact objGet_objSet_same _ _ _
    · show objGet (objSet st.investment "service_crash" (.jbool true))
        "service_crash" = some (.jbool true)
      exact objGet_objSet_same _ _ _
    · show objGet (objSet st.notification "service_crash" (.jbool true))
        "service_crash" = some (.jbool true)
      exact objGet_objSet_same _ _ _
    · intro n g hg
      cases n with
      | claims =>
        simp only [cascadeCells, List.mem_cons, List.not_mem_nil] at hg
        push_neg at hg
        obtain ⟨hg1, _, hg2, _, _⟩ := hg
        have hne1 : g ≠ "high_latency" := by
          intro e; exact hg1 (by rw [e])
        have hne2 : g ≠ "db_failure" := by
          intro e; exact hg2 (by rw [e])
        show objGet (objSet (objSet st.claims "high_latency" (.jbool true))
          "db_failure" (.jbool true)) g = objGet st.claims g
        rw [objGet_objSet_ne _ _ _ _ hne2, objGet_objSet_ne _ _ _ _ hne1]
      | policy =>
        simp only [cascadeCells, List.mem_cons, List.not_mem_nil] at hg
        push_neg at hg
        obtain ⟨_, hg1, _, _, _⟩ := hg
        have hne : g ≠ "high_latency" := by
          intro e; exact hg1 (by rw [e])
        show objGet (objSet st.policy "high_latency" (.jbool true)) g
          = objGet st.policy g
        rw [objGet_objSet_ne _ _ _ _ hne]
      | investment =>
        simp only [cascadeCells, List.mem_cons, List.not_mem_nil] at hg
        push_neg at hg
        obtain ⟨_, _, _, hg1, _⟩ := hg
        have hne : g ≠ "service_crash" := by
          intro e; exact hg1 (by rw [e])
        show objGet (objSet st.investment "service_crash" (.jbool true)) g
          = objGet st.investment g
        rw [objGet_objSet_ne _ _ _ _ hne]
      | notification =>
        simp only [cascadeCells, List.mem_cons, List.not_mem_nil] at hg
        push_neg at hg
        obtain ⟨_, _, _, _, hg1, _⟩ := hg
        have hne : g ≠ "service_crash" := by
          intro e; exact hg1 (by rw [e])
        show objGet (objSet st.notification "service_crash" (.jbool true)) g
          = objGet st.notification g
        rw [objGet_objSet_ne _ _ _ _ hne]
  · intro h2 h4
    have e2 : cascadeStateAt t st =
        setFault (setFault st .claims "high_latency" (.jbool true))
          .policy "high_latency" (.jbool true) := by
      unfold cascadeStateAt
      rw [cascade_filter_window h2 h4, cascade_foldl_two]
    rw [e2]
    refine ⟨⟨?_, ?_⟩, ?_⟩
    · show objGet (objSet st.claims "high_latency" (.jbool true))
        "high_latency" = some (.jbool true)
      exact objGet_objSet_same _ _ _
    · show objGet (objSet st.policy "high_latency" (.jbool true))
        "high_latency" = some (.jbool true)
      exact objGet_objSet_same _ _ _
    · intro n g hg
      cases n with
      | claims =>
        simp only [cascadeFrontCells, List.mem_cons, List.not_mem_nil] at hg
        push_neg at hg
        obtain ⟨hg1, _⟩ := hg
        have hne : g ≠ "high_latency" := by
          intro e; exact hg1 (by rw [e])
        show objGet (objSet st.claims "high_latency" (.jbool true)) g
          = objGet st.claims g
        rw [objGet_objSet_ne _ _ _ _ hne]
      | policy =>
        simp only [cascadeFrontCells, List.mem_cons, List.not_mem_nil] at hg
        push_neg at hg
        obtain ⟨_, hg1, _⟩ := hg
        have hne : g ≠ "high_latency" := by
          intro e; exact hg1 (by rw [e])
        show objGet (objSet st.policy "high_latency" (.jbool true)) g
          = objGet st.policy g
        rw [objGet_objSet_ne _ _ _ _ hne]
      | investment => rfl
      | notification => rfl

/-- Witness for C5 at concrete times: at t = 8000 the final cell is true
and an untouched cell is unchanged; at t = 3000 (between the 2000ms and
4000ms steps) the second cell is true while claims.db_failure is still
unchanged. -/
theorem cascade_timeline_witness :
    ((8000 : Nat) ≤ 8000 ∧
     objGet (serviceRecord (cascadeStateAt 8000 initialMasterState)
         .notification) "service_crash" = some (.jbool true) ∧
     (SvcName.claims, ("cpu_spike" : String)) ∉ cascadeCells ∧
     objGet (serviceRecord (cascadeStateAt 8000 initialMasterState)
         .claims) "cpu_spike"
       = objGet (serviceRecord initialMasterState .claims) "cpu_spike") ∧
    ((2000 : Nat) ≤ 3000 ∧ (3000 : Nat) < 4000 ∧
     objGet (serviceRecord (cascadeStateAt 3000 initialMasterState)
         .policy) "high_latency" = some (.jbool true) ∧
     (SvcName.claims, ("db_failure" : String)) ∉ cascadeFrontCells ∧
     objGet (serviceRecord (cascadeStateAt 3000 initialMasterState)
         .claims) "db_failure"
       = objGet (serviceRecord initialMasterState .claims) "db_failure") :=
  ⟨⟨by decide,
    ((cascade_timeline initialMasterState 8000).1 (by decide)).1.2.2.2.2,
    by decide,
    ((cascade_timeline initialMasterState 8000).1 (by decide)).2 .claims
      "cpu_spike" (by decide)⟩,
   ⟨by decide, by decide,
    ((cascade_timeline initialMasterState 3000).2 (by decide)
      (by decide)).1.2,
    by decide,
    ((cascade_timeline initialMasterState 3000).2 (by decide)
      (by decide)).2 .claims "db_failure" (by decide)⟩⟩
